import Mathlib

/-!
Verification of the anomaly-detection core of the `ai_ml_service`
microservice (`ai_ml_service/main.py`): the stateful `AnomalyDetector`
(train / predict with a 1000-entry baseline buffer and a retrain-on-modulus
policy), the model store (`save_model` / `load_model`), and the HTTP
handlers `detect_anomalies` (POST /anomaly) and `clear_device_models`
(DELETE /models/{device_id}).

Embedding conventions:
* Observations are numeric scalars, embedded as rationals.
* The third-party estimator (`sklearn.ensemble.IsolationForest`) is
  abstracted: a fitted model is a pair of pointwise functions, `score`
  for `decision_function` and `label` for `predict` (`true` for `+1`,
  meaning normal, `false` for `-1`, meaning outlier).  The fitting routine
  is a parameter `fit : List Obs -> FittedModel` (the code fixes
  `random_state=42`, so fitting is deterministic).  An estimator that was
  constructed but never fitted is `none`; calling `decision_function` or
  `predict` on it raises `NotFittedError` in the library, embedded as
  `Except.error`.  An exception propagating out of a method leaves the
  Python object exactly as it was at the raise point; in every raising
  path of this code no mutation precedes the raise, so the error case
  carries no state.
* `joblib` serialization and the models directory are embedded as an
  association list from file names to blobs; an unreadable file
  (`joblib.load` raises, caught and logged) is a `corrupt` blob, and an
  I/O failure of `joblib.dump` (caught and logged by `save_model`) is the
  flag `ioFail`.
-/

set_option maxRecDepth 8000

namespace AutoVolt

/-- An observation: one numeric scalar per device per time step. -/
abbrev Obs := ℚ

/-- A fitted outlier model: `score` embeds `decision_function` on a single
point and `label` embeds `predict` on a single point (`true` = `+1` normal,
`false` = `-1` outlier); the library applies both pointwise to arrays. -/
structure FittedModel where
  score : Obs → ℚ
  label : Obs → Bool

/-- The fitting routine of the underlying library, abstracted as a function
from the training data to the fitted model. -/
abbrev FitFn := List Obs → FittedModel

/-- State of one `AnomalyDetector` object: `model` is the estimator
instance (`none` while unfitted), `trained` the flag, `baseline` the
history buffer. -/
structure AnomalyDetector where
  device_id : String
  model : Option FittedModel
  trained : Bool
  baseline : List Obs

/-- `AnomalyDetector.__init__`: fresh estimator (unfitted), `trained =
False`, empty baseline. -/
def mkDetector (device_id : String) : AnomalyDetector :=
  { device_id := device_id, model := none, trained := false, baseline := [] }

/-- `model.decision_function(xs.reshape(-1,1)).tolist()`: raises
`NotFittedError` on an unfitted estimator. -/
def decisionFunction (m : Option FittedModel) (xs : List Obs) :
    Except Unit (List ℚ) :=
  match m with
  | none => .error ()
  | some f => .ok (xs.map f.score)

/-- `model.predict(xs.reshape(-1,1))` as a list of labels: raises
`NotFittedError` on an unfitted estimator. -/
def predictLabels (m : Option FittedModel) (xs : List Obs) :
    Except Unit (List Bool) :=
  match m with
  | none => .error ()
  | some f => .ok (xs.map f.label)

/-- Python slice `l[-n:]`. -/
def takeLast (n : Nat) (l : List α) : List α :=
  l.drop (l.length - n)

/-- Contents of a file in the models directory: a readable pickle of a
detector, or a blob on which `joblib.load` raises. -/
inductive Blob where
  | good (d : AnomalyDetector)
  | corrupt

/-- `MODELS_DIR / f"{device_id}_{model_type}.pkl"`. -/
def modelFileName (device_id model_type : String) : String :=
  device_id ++ "_" ++ model_type ++ ".pkl"

/-- The models directory: file names to contents, unique keys maintained
by `FileSys.write`. -/
abbrev FileSys := List (String × Blob)

/-- Writing a file overwrites silently. -/
def FileSys.write (fs : FileSys) (name : String) (b : Blob) : FileSys :=
  (name, b) :: fs.filter (fun p => p.1 ≠ name)

/-- `path.exists()` plus reading: the stored blob, if any. -/
def FileSys.read (fs : FileSys) (name : String) : Option Blob :=
  (fs.find? (fun p => p.1 = name)).map Prod.snd

/-- `save_model(device_id, model_type, model)`: `joblib.dump` to
`{device_id}_{model_type}.pkl`; any exception (`ioFail`) is caught and
logged, leaving the file system unchanged; never re-raised. -/
def save_model (ioFail : Bool) (fs : FileSys) (device_id model_type : String)
    (d : AnomalyDetector) : FileSys :=
  if ioFail then fs
  else fs.write (modelFileName device_id model_type) (Blob.good d)

/-- `load_model(device_id, model_type)`: returns the deserialized model
when the path exists and `joblib.load` succeeds; returns `None` when the
path is absent or deserialization raises (caught and logged). -/
def load_model (fs : FileSys) (device_id model_type : String) :
    Option AnomalyDetector :=
  match fs.read (modelFileName device_id model_type) with
  | some (Blob.good d) => some d
  | some Blob.corrupt => none
  | none => none

/-- `AnomalyDetector.train(data)`: when `len(data) >= 10`, fits a new model
on the full set, replaces the baseline with exactly that set, sets
`trained = True` and persists `self` via `save_model`; otherwise a silent
no-op.  The extra boolean reports whether the fit-and-persist branch ran
(it is not part of the Python return value, which is `None`). -/
def AnomalyDetector.train (d : AnomalyDetector) (fit : FitFn) (ioFail : Bool)
    (fs : FileSys) (data : List Obs) : AnomalyDetector × FileSys × Bool :=
  if 10 ≤ data.length then
    let d1 : AnomalyDetector :=
      { d with model := some (fit data), baseline := data, trained := true }
    (d1, save_model ioFail fs d1.device_id "anomaly" d1, true)
  else
    (d, fs, false)

/-- Return value of `AnomalyDetector.predict`: the anomaly index list and
the score list. -/
structure PredictResult where
  anomalies : List Nat
  scores : List ℚ

/-- `AnomalyDetector.predict(new_data)`.  Untrained: train first (no-op
below 10 points), then score the same input (raising `NotFittedError` when
training was skipped on a never-fitted estimator) and return no anomalies.
Trained: score and label the input, report the indices with label `-1`,
append the points with label `+1` to the baseline, keep the most recent
1000, and retrain on the full buffer when its length is an exact multiple
of 100.  The boolean reports whether a fit-and-persist happened during the
call. -/
def AnomalyDetector.predict (d : AnomalyDetector) (fit : FitFn)
    (ioFail : Bool) (fs : FileSys) (new_data : List Obs) :
    Except Unit (PredictResult × AnomalyDetector × FileSys × Bool) :=
  if d.trained = false then
    match d.train fit ioFail fs new_data with
    | (d1, fs1, didFit) =>
      match decisionFunction d1.model new_data with
      | .error e => .error e
      | .ok scores => .ok ({ anomalies := [], scores := scores }, d1, fs1, didFit)
  else
    match decisionFunction d.model new_data, predictLabels d.model new_data with
    | .error e, _ => .error e
    | .ok _, .error e => .error e
    | .ok scores, .ok labels =>
      let anomalies : List Nat :=
        ((labels.enum.filter (fun p => p.2 = false)).map Prod.fst)
      let normal_points : List Obs :=
        ((new_data.zip labels).filter (fun p => p.2 = true)).map Prod.fst
      if 0 < normal_points.length then
        let b2 := takeLast 1000 (d.baseline ++ normal_points)
        if b2.length % 100 = 0 then
          match ({ d with baseline := b2 } :
              AnomalyDetector).train fit ioFail fs b2 with
          | (d2, fs2, didFit) =>
            .ok ({ anomalies := anomalies, scores := scores }, d2, fs2, didFit)
        else
          .ok ({ anomalies := anomalies, scores := scores },
               { d with baseline := b2 }, fs, false)
      else
        .ok ({ anomalies := anomalies, scores := scores }, d, fs, false)

/-- One `predict` call as a state transformer on (detector, file system):
on an exception the state at the raise point is returned, and in every
raising path of `predict` no mutation precedes the raise. -/
def predStep (fit : FitFn) (ioFail : Bool) (p : AnomalyDetector × FileSys)
    (xs : List Obs) : AnomalyDetector × FileSys :=
  match p.1.predict fit ioFail p.2 xs with
  | .ok (_, d2, fs2, _) => (d2, fs2)
  | .error _ => p

/-- A sequence of `predict` calls. -/
def runPredicts (fit : FitFn) (ioFail : Bool) (p : AnomalyDetector × FileSys)
    (inputs : List (List Obs)) : AnomalyDetector × FileSys :=
  inputs.foldl (predStep fit ioFail) p

/-- An external call on a detector: `train` or `predict`. -/
inductive DetOp where
  | trainOp (data : List Obs)
  | predictOp (data : List Obs)

/-- One `train` or `predict` call as a state transformer. -/
def detStep (fit : FitFn) (ioFail : Bool) (p : AnomalyDetector × FileSys)
    (op : DetOp) : AnomalyDetector × FileSys :=
  match op with
  | .trainOp data =>
    match p.1.train fit ioFail p.2 data with
    | (d2, fs2, _) => (d2, fs2)
  | .predictOp data => predStep fit ioFail p data

/-- A sequence of `train` / `predict` calls. -/
def runOps (fit : FitFn) (ioFail : Bool) (p : AnomalyDetector × FileSys)
    (ops : List DetOp) : AnomalyDetector × FileSys :=
  ops.foldl (detStep fit ioFail) p

/-- The module-level `anomaly_detectors` dict: device id to live detector,
unique keys maintained by `regInsert`. -/
abbrev Registry := List (String × AnomalyDetector)

/-- Dict lookup. -/
def regFind (r : Registry) (k : String) : Option AnomalyDetector :=
  (r.find? (fun p => p.1 = k)).map Prod.snd

/-- Dict assignment `r[k] = d`. -/
def regInsert (r : Registry) (k : String) (d : AnomalyDetector) : Registry :=
  (k, d) :: r.filter (fun p => p.1 ≠ k)

/-- Dict deletion `del r[k]` (guarded by membership in the code). -/
def regErase (r : Registry) (k : String) : Registry :=
  r.filter (fun p => p.1 ≠ k)

/-- Mutable module state touched by the handlers: the models directory and
the in-memory detector cache. -/
structure ServerState where
  files : FileSys
  anomaly_detectors : Registry

/-- Response body of POST /anomaly. -/
structure AnomalyResponse where
  device_id : String
  anomalies : List Nat
  scores : List ℚ
  threshold : ℚ

/-- POST /anomaly (`detect_anomalies`): 400 below 10 values; otherwise get
or create the detector (memory, then disk, then fresh), run `predict`, and
answer with the anomalies, scores and the 10th percentile of the scores
(`perc10` abstracts `np.percentile(scores, 10)`).  An exception from
`predict` is caught at the handler boundary and becomes a 500.  Errors are
`(status code, detail)`. -/
def detect_anomalies (fit : FitFn) (perc10 : List ℚ → ℚ) (ioFail : Bool)
    (s : ServerState) (device_id : String) (values : List Obs) :
    Except (Nat × String) AnomalyResponse × ServerState :=
  if values.length < 10 then
    (.error (400, "Need at least 10 data points for anomaly detection"), s)
  else
    let dr : AnomalyDetector × Registry :=
      match regFind s.anomaly_detectors device_id with
      | some det => (det, s.anomaly_detectors)
      | none =>
        match load_model s.files device_id "anomaly" with
        | some det => (det, regInsert s.anomaly_detectors device_id det)
        | none =>
          (mkDetector device_id,
           regInsert s.anomaly_detectors device_id (mkDetector device_id))
    match dr.1.predict fit ioFail s.files values with
    | .error _ =>
      (.error (500, "Anomaly detection failed"),
       { files := s.files, anomaly_detectors := dr.2 })
    | .ok (res, det2, fs2, _) =>
      (.ok { device_id := device_id, anomalies := res.anomalies,
             scores := res.scores,
             threshold := if 0 < res.scores.length then perc10 res.scores else 0 },
       { files := fs2, anomaly_detectors := regInsert dr.2 device_id det2 })

/-- Whether a file name matches the glob `{device_id}_*.pkl`.  The pattern
prefix always ends in an underscore and the suffix starts with a dot, so
prefix-and-suffix testing is exactly glob matching here. -/
def globMatch (device_id : String) (name : String) : Bool :=
  ((device_id ++ "_").isPrefixOf name) && name.endsWith ".pkl"

/-- DELETE /models/{device_id} (`clear_device_models`): unlink every file
matching `{device_id}_*.pkl`, drop the id from the in-memory cache, and
answer with the number of files removed. -/
def clear_device_models (s : ServerState) (device_id : String) :
    Nat × ServerState :=
  let matched := s.files.filter (fun p => globMatch device_id p.1)
  (matched.length,
   { files := s.files.filter (fun p => !(globMatch device_id p.1)),
     anomaly_detectors := regErase s.anomaly_detectors device_id })

/-! ### Concrete instances used by counterexamples and witnesses -/

/-- A concrete fitting routine: every point scores 0 and is labeled normal. -/
def fit0 : FitFn := fun _ => { score := fun _ => 0, label := fun _ => true }

/-- A concrete ten-point observation list. -/
def data10 : List Obs := [0, 1, 2, 3, 4, 5, 6, 7, 8, 9]

/-- A concrete percentile routine for handler witnesses. -/
def perc0 : List ℚ → ℚ := fun _ => 0

/-! ### Helper lemmas -/

theorem takeLast_length_le (n : Nat) (l : List α) : (takeLast n l).length ≤ n := by
  simp only [takeLast, List.length_drop]
  omega

/-- The boolean-mask selection `new_data[predictions == 1]` equals a filter
by the label function. -/
theorem normals_eq (g : Obs → Bool) (xs : List Obs) :
    ((xs.zip (xs.map g)).filter (fun p => p.2 = true)).map Prod.fst =
      xs.filter g := by
  induction xs with
  | nil => rfl
  | cons a l ih =>
    have ih2 : List.map Prod.fst
        (List.filter (fun p => p.2) (l.zip (List.map g l))) =
          List.filter g l := by
      simpa using ih
    by_cases h : g a <;> simp [h, ih2]

/-- Evaluation of predict on a trained detector with a fitted model: the
guard and the two library calls reduce, leaving the incremental-learning
branch structure. -/
theorem predict_trained_eval (fit : FitFn) (ioFail : Bool) (fs : FileSys)
    (d : AnomalyDetector) (f : FittedModel) (xs : List Obs)
    (ht : d.trained = true) (hm : d.model = some f) :
    d.predict fit ioFail fs xs =
      (let scores := xs.map f.score
       let labels := xs.map f.label
       let anomalies : List Nat :=
         ((labels.enum.filter (fun p => p.2 = false)).map Prod.fst)
       let normal_points : List Obs :=
         ((xs.zip labels).filter (fun p => p.2 = true)).map Prod.fst
       if 0 < normal_points.length then
         let b2 := takeLast 1000 (d.baseline ++ normal_points)
         if b2.length % 100 = 0 then
           match ({ d with baseline := b2 } :
               AnomalyDetector).train fit ioFail fs b2 with
           | (d2, fs2, didFit) =>
             .ok ({ anomalies := anomalies, scores := scores }, d2, fs2, didFit)
         else
           .ok ({ anomalies := anomalies, scores := scores },
                { d with baseline := b2 }, fs, false)
       else
         .ok ({ anomalies := anomalies, scores := scores }, d, fs, false)) := by
  unfold AnomalyDetector.predict
  rw [ht, hm]
  rfl

theorem takeLast_length (n : Nat) (l : List α) :
    (takeLast n l).length = min n l.length := by
  simp only [takeLast, List.length_drop]
  omega

/-- The anomaly index list predict computes: positions whose label is
outlier, in enumeration order. -/
def anomsDef (f : FittedModel) (xs : List Obs) : List Nat :=
  (((xs.map f.label).enum.filter (fun p => p.2 = false)).map Prod.fst)

/-- The detector after a successful fit on `b`: new model, baseline
replaced by `b`, trained. -/
def trainedOn (fit : FitFn) (d : AnomalyDetector) (b : List Obs) :
    AnomalyDetector :=
  { d with model := some (fit b), baseline := b, trained := true }

/-- Full evaluation of predict on a trained detector: the mask selection
is a filter by the label, and the retrain fires exactly on a nonempty
normal set whose truncated buffer length is a multiple of 100. -/
theorem predict_trained_full (fit : FitFn) (ioFail : Bool) (fs : FileSys)
    (d : AnomalyDetector) (f : FittedModel) (xs : List Obs)
    (ht : d.trained = true) (hm : d.model = some f) :
    d.predict fit ioFail fs xs =
      (if 0 < (xs.filter f.label).length then
        (if (takeLast 1000 (d.baseline ++ xs.filter f.label)).length % 100 = 0
         then
          .ok ({ anomalies := anomsDef f xs, scores := xs.map f.score },
               trainedOn fit d (takeLast 1000 (d.baseline ++ xs.filter f.label)),
               save_model ioFail fs d.device_id "anomaly"
                 (trainedOn fit d
                   (takeLast 1000 (d.baseline ++ xs.filter f.label))),
               true)
         else
          .ok ({ anomalies := anomsDef f xs, scores := xs.map f.score },
               { d with baseline :=
                   takeLast 1000 (d.baseline ++ xs.filter f.label) },
               fs, false))
       else
        .ok ({ anomalies := anomsDef f xs, scores := xs.map f.score },
             d, fs, false)) := by
  rw [predict_trained_eval fit ioFail fs d f xs ht hm]
  simp only [normals_eq, anomsDef]
  by_cases h1 : 0 < (xs.filter f.label).length
  · rw [if_pos h1, if_pos h1]
    by_cases h2 :
        (takeLast 1000 (d.baseline ++ xs.filter f.label)).length % 100 = 0
    · rw [if_pos h2, if_pos h2]
      have hpos : 0 < (takeLast 1000 (d.baseline ++ xs.filter f.label)).length := by
        rw [takeLast_length, List.length_append]
        omega
      have hlen : 10 ≤ (takeLast 1000 (d.baseline ++ xs.filter f.label)).length := by
        omega
      simp [AnomalyDetector.train, hlen, trainedOn]
    · rw [if_neg h2, if_neg h2]
  · rw [if_neg h1, if_neg h1]

theorem anoms_sorted (f : FittedModel) (xs : List Obs) :
    (anomsDef f xs).Sorted (· < ·) := by
  have h0 : (((xs.map f.label).enum).map Prod.fst).Sorted (· < ·) := by
    rw [List.enum_eq_zip_range, List.map_fst_zip]
    · exact List.sorted_lt_range _
    · simp
  have h1 : ((xs.map f.label).enum).Pairwise
      (fun p q : Nat × Bool => p.1 < q.1) :=
    (List.pairwise_map).1 h0
  have h2 : (((xs.map f.label).enum).filter
      (fun p => p.2 = false)).Pairwise (fun p q : Nat × Bool => p.1 < q.1) :=
    h1.sublist (List.filter_sublist _)
  exact (List.pairwise_map).2 h2

theorem anoms_mem (f : FittedModel) (xs : List Obs) (i : Nat) :
    i ∈ anomsDef f xs ↔ ∃ x, xs.get? i = some x ∧ f.label x = false := by
  simp only [anomsDef, List.mem_map, List.mem_filter,
    List.mem_enum_iff_get?, List.get?_map, decide_eq_true_eq, Prod.exists]
  constructor
  · rintro ⟨a, b, ⟨hget, hb⟩, ha⟩
    subst ha
    rcases Option.map_eq_some'.1 (by rw [hget, hb]) with ⟨x, hx, hfx⟩
    exact ⟨x, hx, hfx⟩
  · rintro ⟨x, hx, hfx⟩
    exact ⟨i, false, ⟨by rw [hx]; simp [hfx], rfl⟩, rfl⟩

/-- Evaluation of predict on an untrained detector that has enough points
to train. -/
theorem predict_untrained_ge10_eval (fit : FitFn) (ioFail : Bool)
    (fs : FileSys) (d : AnomalyDetector) (xs : List Obs)
    (ht : d.trained = false) (hlen : 10 ≤ xs.length) :
    d.predict fit ioFail fs xs =
      .ok ({ anomalies := [], scores := xs.map (fit xs).score },
           { d with model := some (fit xs), baseline := xs, trained := true },
           save_model ioFail fs d.device_id "anomaly"
             { d with model := some (fit xs), baseline := xs, trained := true },
           true) := by
  simp [AnomalyDetector.predict, AnomalyDetector.train, ht, hlen,
    decisionFunction]

theorem train_fst_trained (fit : FitFn) (ioFail : Bool) (fs : FileSys)
    (d : AnomalyDetector) (data : List Obs) (h : d.trained = true) :
    ((d.train fit ioFail fs data).1).trained = true := by
  by_cases hl : 10 ≤ data.length <;>
    simp [AnomalyDetector.train, hl, h]

/-- A trained detector with no fitted model makes predict raise. -/
theorem predict_trained_nomodel (fit : FitFn) (ioFail : Bool) (fs : FileSys)
    (d : AnomalyDetector) (xs : List Obs)
    (ht : d.trained = true) (hm : d.model = none) :
    d.predict fit ioFail fs xs = .error () := by
  unfold AnomalyDetector.predict
  rw [ht, hm]
  rfl

/-- A successful predict never clears the trained flag. -/
theorem predict_ok_trained (fit : FitFn) (ioFail : Bool) (fs : FileSys)
    (d : AnomalyDetector) (xs : List Obs) (res : PredictResult)
    (d2 : AnomalyDetector) (fs2 : FileSys) (b : Bool)
    (ht : d.trained = true)
    (hp : d.predict fit ioFail fs xs = .ok (res, d2, fs2, b)) :
    d2.trained = true := by
  cases hm : d.model with
  | none =>
    rw [predict_trained_nomodel fit ioFail fs d xs ht hm] at hp
    exact absurd hp (by simp)
  | some f =>
    rw [predict_trained_full fit ioFail fs d f xs ht hm] at hp
    split_ifs at hp with h1 h2 <;>
      simp only [Except.ok.injEq, Prod.mk.injEq] at hp
    · rcases hp with ⟨-, hd2, -⟩
      rw [← hd2]
      rfl
    · rcases hp with ⟨-, hd2, -⟩
      rw [← hd2]
      exact ht
    · rcases hp with ⟨-, hd2, -⟩
      rw [← hd2]
      exact ht

/-- The baseline after a successful predict: unchanged, replaced by the
input (initial training), or a 1000-suffix. -/
theorem predict_ok_baseline_cases (fit : FitFn) (ioFail : Bool)
    (fs : FileSys) (d : AnomalyDetector) (xs : List Obs)
    (res : PredictResult) (d2 : AnomalyDetector) (fs2 : FileSys) (b : Bool)
    (hp : d.predict fit ioFail fs xs = .ok (res, d2, fs2, b)) :
    d2.baseline = d.baseline ∨ d2.baseline = xs ∨
      ∃ l, d2.baseline = takeLast 1000 l := by
  by_cases ht : d.trained = true
  · cases hm : d.model with
    | none =>
      rw [predict_trained_nomodel fit ioFail fs d xs ht hm] at hp
      exact absurd hp (by simp)
    | some f =>
      rw [predict_trained_full fit ioFail fs d f xs ht hm] at hp
      split_ifs at hp with h1 h2 <;>
        simp only [Except.ok.injEq, Prod.mk.injEq] at hp
      · rcases hp with ⟨-, hd2, -⟩
        right; right
        exact ⟨d.baseline ++ xs.filter f.label, by rw [← hd2]; rfl⟩
      · rcases hp with ⟨-, hd2, -⟩
        right; right
        exact ⟨d.baseline ++ xs.filter f.label, by rw [← hd2]⟩
      · rcases hp with ⟨-, hd2, -⟩
        left
        rw [← hd2]
  · have ht2 : d.trained = false := by
      revert ht
      cases d.trained <;> simp
    by_cases hlen : 10 ≤ xs.length
    · have := predict_untrained_ge10_eval fit ioFail fs d xs ht2 hlen
      rw [this] at hp
      simp only [Except.ok.injEq, Prod.mk.injEq] at hp
      rcases hp with ⟨-, hd2, -⟩
      right; left
      rw [← hd2]
    · cases hm : d.model with
      | none =>
        have he : d.predict fit ioFail fs xs = .error () := by
          unfold AnomalyDetector.predict
          rw [ht2]
          simp [AnomalyDetector.train, hlen, decisionFunction, hm]
        rw [he] at hp
        exact absurd hp (by simp)
      | some g =>
        have he : d.predict fit ioFail fs xs =
            .ok ({ anomalies := [], scores := xs.map g.score }, d, fs, false) := by
          unfold AnomalyDetector.predict
          rw [ht2]
          simp [AnomalyDetector.train, hlen, hm, decisionFunction]
        rw [he] at hp
        simp only [Except.ok.injEq, Prod.mk.injEq] at hp
        rcases hp with ⟨-, hd2, -⟩
        left
        rw [← hd2]

/-! ### C4 -/

/-- C4: with at least 10 observations, train fits a new model on the full
set, replaces baseline with exactly that set, sets trained, and persists
the detector; with fewer than 10 it is a silent no-op. -/
theorem train_spec (fit : FitFn) (ioFail : Bool) (fs : FileSys)
    (d : AnomalyDetector) (data : List Obs) :
    (10 ≤ data.length →
      d.train fit ioFail fs data =
        ({ d with model := some (fit data), baseline := data, trained := true },
         save_model ioFail fs d.device_id "anomaly"
           { d with model := some (fit data), baseline := data, trained := true },
         true)) ∧
    (data.length < 10 → d.train fit ioFail fs data = (d, fs, false)) := by
  constructor
  · intro h
    simp [AnomalyDetector.train, h]
  · intro h
    simp [AnomalyDetector.train, Nat.not_le.mpr h]

/-- train_spec applied at a concrete detector and ten concrete points. -/
theorem train_spec_witness :
    ((mkDetector "dev").train fit0 false [] data10).2.2 = true := by
  have h := (train_spec fit0 false [] (mkDetector "dev") data10).1
    (by simp [data10])
  rw [h]

/-! ### C5 -/

/-- C5: an untrained detector given at least 10 observations first trains
on that input (it becomes the initial baseline), then returns no anomalies
together with the decision scores the newly trained model assigns to those
same points. -/
theorem predict_untrained_ge10 (fit : FitFn) (ioFail : Bool) (fs : FileSys)
    (d : AnomalyDetector) (xs : List Obs)
    (ht : d.trained = false) (hlen : 10 ≤ xs.length) :
    d.predict fit ioFail fs xs =
      .ok ({ anomalies := [], scores := xs.map (fit xs).score },
           { d with model := some (fit xs), baseline := xs, trained := true },
           save_model ioFail fs d.device_id "anomaly"
             { d with model := some (fit xs), baseline := xs, trained := true },
           true) :=
  predict_untrained_ge10_eval fit ioFail fs d xs ht hlen

/-- predict_untrained_ge10 applied at a fresh detector and ten points. -/
theorem predict_untrained_ge10_witness :
    (mkDetector "dev").predict fit0 false [] data10 =
      .ok ({ anomalies := [], scores := data10.map (fit0 data10).score },
           { mkDetector "dev" with
               model := some (fit0 data10), baseline := data10, trained := true },
           save_model false [] "dev" "anomaly"
             { mkDetector "dev" with
                 model := some (fit0 data10), baseline := data10, trained := true },
           true) :=
  predict_untrained_ge10 fit0 false [] (mkDetector "dev") data10 rfl
    (by simp [data10])

/-! ### C3 -/

/-- C3 counterexample: on three points, an untrained fresh detector does
not return an empty anomaly list; predict raises (the unfitted estimator
rejects decision_function), embedded as an error value. -/
theorem predict_untrained_lt10_cex :
    (mkDetector "dev").predict fit0 false [] [1, 2, 3] = .error () := rfl

/-- C3 amended: on fewer than 10 points, an untrained detector (fresh
estimator, hence unfitted) skips training and then raises NotFittedError
from decision_function; no result is returned and the detector state and
file system are unchanged. -/
theorem predict_untrained_lt10 (fit : FitFn) (ioFail : Bool) (fs : FileSys)
    (d : AnomalyDetector) (xs : List Obs)
    (ht : d.trained = false) (hm : d.model = none) (hlen : xs.length < 10) :
    d.predict fit ioFail fs xs = .error () ∧
    predStep fit ioFail (d, fs) xs = (d, fs) := by
  have h1 : d.predict fit ioFail fs xs = .error () := by
    simp [AnomalyDetector.predict, AnomalyDetector.train, ht, hm,
      Nat.not_le.mpr hlen, decisionFunction]
  exact ⟨h1, by simp [predStep, h1]⟩

/-- predict_untrained_lt10 applied at a fresh detector and three points. -/
theorem predict_untrained_lt10_witness :
    (mkDetector "dev").predict fit0 false [] [1, 2, 3] = .error () ∧
    predStep fit0 false (mkDetector "dev", []) [1, 2, 3] =
      (mkDetector "dev", []) :=
  predict_untrained_lt10 fit0 false [] (mkDetector "dev") [1, 2, 3]
    rfl rfl (by simp)

/-! ### C6 -/

/-- C6: the model store never raises.  A save under an I/O failure is
caught and leaves the store unchanged (callers observe no persisted
update); a load after a successful save returns the saved detector; a load
from an absent path, or from a path whose contents fail to deserialize,
returns the sentinel none. -/
theorem model_store_spec (fs : FileSys) (did k : String)
    (d : AnomalyDetector) :
    save_model true fs did k d = fs ∧
    load_model (save_model false fs did k d) did k = some d ∧
    (fs.read (modelFileName did k) = none → load_model fs did k = none) ∧
    (fs.read (modelFileName did k) = some Blob.corrupt →
      load_model fs did k = none) := by
  refine ⟨rfl, ?_, ?_, ?_⟩
  · simp [load_model, save_model, FileSys.write, FileSys.read]
  · intro h
    simp [load_model, h]
  · intro h
    simp [load_model, h]

/-- model_store_spec applied at the empty store: an absent path loads as
none, and a save followed by a load round-trips. -/
theorem model_store_spec_witness :
    load_model [] "dev" "anomaly" = none ∧
    load_model (save_model false [] "dev" "anomaly" (mkDetector "dev"))
      "dev" "anomaly" = some (mkDetector "dev") :=
  ⟨(model_store_spec [] "dev" "anomaly" (mkDetector "dev")).2.2.1 rfl,
   (model_store_spec [] "dev" "anomaly" (mkDetector "dev")).2.1⟩

/-! ### C7 -/

/-- C7: a POST /anomaly request with fewer than 10 values is answered with
a 400 client error carrying a descriptive message, and the server state
(in-memory registry and persisted store) is returned unchanged. -/
theorem detect_anomalies_lt10 (fit : FitFn) (perc10 : List ℚ → ℚ)
    (ioFail : Bool) (s : ServerState) (did : String) (values : List Obs)
    (h : values.length < 10) :
    detect_anomalies fit perc10 ioFail s did values =
      (.error (400, "Need at least 10 data points for anomaly detection"),
       s) := by
  simp [detect_anomalies, h]

/-- detect_anomalies_lt10 applied at the empty server state and three
values. -/
theorem detect_anomalies_lt10_witness :
    detect_anomalies fit0 perc0 false
        { files := [], anomaly_detectors := [] } "dev" [1, 2, 3] =
      (.error (400, "Need at least 10 data points for anomaly detection"),
       { files := [], anomaly_detectors := [] }) :=
  detect_anomalies_lt10 fit0 perc0 false
    { files := [], anomaly_detectors := [] } "dev" [1, 2, 3] (by simp)

/-! ### C10 -/

/-- C10: when the current model labels every input observation an outlier
(no normal points), a trained detector is left entirely unchanged by
predict: same baseline, model and trained flag, same file system, and no
retraining happened during the call. -/
theorem predict_all_outliers (fit : FitFn) (ioFail : Bool) (fs : FileSys)
    (d : AnomalyDetector) (f : FittedModel) (xs : List Obs)
    (ht : d.trained = true) (hm : d.model = some f)
    (hall : ∀ x ∈ xs, f.label x = false) :
    d.predict fit ioFail fs xs =
      .ok ({ anomalies :=
               (((xs.map f.label).enum.filter (fun p => p.2 = false)).map
                 Prod.fst),
             scores := xs.map f.score }, d, fs, false) := by
  have hfil : xs.filter f.label = [] := by
    rw [List.filter_eq_nil_iff]
    intro x hx
    simp [hall x hx]
  have hN : ((xs.zip (xs.map f.label)).filter
      (fun p => p.2 = true)).map Prod.fst = [] := by
    rw [normals_eq, hfil]
  rw [predict_trained_eval fit ioFail fs d f xs ht hm]
  simp only [hN, List.length_nil, lt_irrefl, if_false, reduceIte]

/-- A model labeling every point an outlier. -/
def fOut : FittedModel := { score := fun _ => 0, label := fun _ => false }

/-- predict_all_outliers applied at a concrete trained detector and two
points, both labeled outlier. -/
theorem predict_all_outliers_witness :
    ({ device_id := "dev", model := some fOut, trained := true,
       baseline := [0, 1] } : AnomalyDetector).predict fit0 false [] [5, 6] =
      .ok ({ anomalies :=
               ((([5, 6].map fOut.label).enum.filter
                 (fun p => p.2 = false)).map Prod.fst),
             scores := [5, 6].map fOut.score },
           { device_id := "dev", model := some fOut, trained := true,
             baseline := [0, 1] }, [], false) :=
  predict_all_outliers fit0 false []
    { device_id := "dev", model := some fOut, trained := true,
      baseline := [0, 1] } fOut [5, 6] rfl rfl
    (by intro x _; rfl)

/-! ### C9 -/

theorem detStep_trained_mono (fit : FitFn) (ioFail : Bool)
    (p : AnomalyDetector × FileSys) (op : DetOp)
    (h : p.1.trained = true) :
    ((detStep fit ioFail p op).1).trained = true := by
  cases op with
  | trainOp data =>
    have htr := train_fst_trained fit ioFail p.2 p.1 data h
    rcases hres : p.1.train fit ioFail p.2 data with ⟨d3, fs3, b3⟩
    rw [hres] at htr
    simp [detStep, hres]
    exact htr
  | predictOp data =>
    simp only [detStep, predStep]
    cases hp : p.1.predict fit ioFail p.2 data with
    | error e => exact h
    | ok r =>
      obtain ⟨res, d2, fs2, b⟩ := r
      exact predict_ok_trained fit ioFail p.2 p.1 data res d2 fs2 b h hp

/-- C9: the trained flag is one-way.  Once a detector is trained, no
sequence of train and predict calls ever makes it untrained again: train
only ever sets the flag, and every predict outcome on a trained detector
keeps it set. -/
theorem trained_persists (fit : FitFn) (ioFail : Bool) (ops : List DetOp) :
    ∀ p : AnomalyDetector × FileSys, p.1.trained = true →
      ((runOps fit ioFail p ops).1).trained = true := by
  induction ops with
  | nil =>
    intro p h
    exact h
  | cons op rest ih =>
    intro p h
    have h1 := detStep_trained_mono fit ioFail p op h
    have h2 := ih (detStep fit ioFail p op) h1
    simpa [runOps, List.foldl] using h2

/-- A concrete trained detector for witnesses. -/
def dTr : AnomalyDetector :=
  { device_id := "dev", model := some (fit0 []), trained := true,
    baseline := [0, 1, 2] }

/-- trained_persists applied at a concrete trained detector and a concrete
call sequence. -/
theorem trained_persists_witness :
    ((runOps fit0 false (dTr, [])
        [DetOp.predictOp [1, 2], DetOp.trainOp [3], DetOp.predictOp []]).1).trained
      = true :=
  trained_persists fit0 false
    [DetOp.predictOp [1, 2], DetOp.trainOp [3], DetOp.predictOp []]
    (dTr, []) rfl

/-! ### C2 -/

/-- C2 counterexample: the very predict call that performs the first
training, given 1001 observations, leaves a trained detector whose
baseline holds 1001 entries, exceeding 1000. -/
def cbig : List Obs := List.replicate 1001 0

/-- The detector state after that first training. -/
def dBig : AnomalyDetector :=
  { device_id := "dev", model := some (fit0 cbig), trained := true,
    baseline := cbig }

/-- C2 counterexample: after one predict call on a fresh detector with
1001 points, the detector is trained and its baseline has 1001 > 1000
entries. -/
theorem baseline_cap_cex :
    (mkDetector "dev").predict fit0 false [] cbig =
      .ok ({ anomalies := [], scores := cbig.map (fit0 cbig).score }, dBig,
           save_model false [] "dev" "anomaly" dBig, true) ∧
    dBig.trained = true ∧ 1000 < dBig.baseline.length := by
  refine ⟨?_, rfl, by simp [dBig, cbig]⟩
  have h := predict_untrained_ge10_eval fit0 false [] (mkDetector "dev")
    cbig rfl (by simp [cbig])
  rw [h]
  rfl

theorem predStep_baseline_le (fit : FitFn) (ioFail : Bool)
    (p : AnomalyDetector × FileSys) (xs : List Obs)
    (hb : p.1.baseline.length ≤ 1000) (hx : xs.length ≤ 1000) :
    ((predStep fit ioFail p xs).1).baseline.length ≤ 1000 := by
  simp only [predStep]
  cases hp : p.1.predict fit ioFail p.2 xs with
  | error e => exact hb
  | ok r =>
    obtain ⟨res, d2, fs2, b⟩ := r
    rcases predict_ok_baseline_cases fit ioFail p.2 p.1 xs res d2 fs2 b hp
      with h | h | ⟨l, h⟩
    · simpa [h] using hb
    · simpa [h] using hx
    · simp only [h]
      exact takeLast_length_le 1000 l

/-- C2 amended: when every predict input has at most 1000 observations
(and the starting baseline does too, as for a fresh detector), the
baseline never exceeds 1000 entries after any predict call, including the
call that performs the first training. -/
theorem baseline_cap (fit : FitFn) (ioFail : Bool)
    (inputs : List (List Obs)) :
    ∀ p : AnomalyDetector × FileSys, p.1.baseline.length ≤ 1000 →
      (∀ xs ∈ inputs, xs.length ≤ 1000) →
      ((runPredicts fit ioFail p inputs).1).baseline.length ≤ 1000 := by
  induction inputs with
  | nil =>
    intro p hb _
    exact hb
  | cons xs rest ih =>
    intro p hb hx
    have h1 := predStep_baseline_le fit ioFail p xs hb (hx xs (by simp))
    have h2 := ih (predStep fit ioFail p xs) h1
      (fun ys hy => hx ys (by simp [hy]))
    simpa [runPredicts, List.foldl] using h2

/-- baseline_cap applied at a fresh detector and two concrete calls, the
first of which performs the initial training. -/
theorem baseline_cap_witness :
    ((runPredicts fit0 false (mkDetector "dev", [])
        [data10, [11, 12]]).1).baseline.length ≤ 1000 :=
  baseline_cap fit0 false [data10, [11, 12]] (mkDetector "dev", [])
    (by simp [mkDetector])
    (by
      intro xs hxs
      simp only [List.mem_cons, List.not_mem_nil, or_false] at hxs
      rcases hxs with h | h <;> simp [h, data10])

/-! ### C8 -/

/-- C8: a first clear removes every persisted file of the identifier and
evicts it from the in-memory cache; an immediately following second clear
reports zero files removed and leaves the state exactly as the first one
left it. -/
theorem clear_models_spec (s : ServerState) (did : String) :
    (clear_device_models s did).2.files.filter
        (fun p => globMatch did p.1) = [] ∧
    regFind (clear_device_models s did).2.anomaly_detectors did = none ∧
    (clear_device_models (clear_device_models s did).2 did).1 = 0 ∧
    (clear_device_models (clear_device_models s did).2 did).2 =
      (clear_device_models s did).2 := by
  refine ⟨?_, ?_, ?_, ?_⟩
  · simp [clear_device_models, List.filter_filter]
  · have h : List.find? (fun p => p.1 = did)
        (List.filter (fun p => p.1 ≠ did) s.anomaly_detectors) = none := by
      rw [List.find?_eq_none]
      intro x hx
      rcases List.mem_filter.1 hx with ⟨-, hx2⟩
      simp only [decide_eq_true_eq] at hx2
      simp [hx2]
    simp [clear_device_models, regFind, regErase, h]
  · simp [clear_device_models, List.filter_filter]
  · simp [clear_device_models, regErase, List.filter_filter]

/-! ### C1 -/

/-- A trained detector whose baseline already holds exactly 100 entries
and whose model labels every point an outlier. -/
def dC1 : AnomalyDetector :=
  { device_id := "dev", model := some fOut, trained := true,
    baseline := List.replicate 100 0 }

/-- C1 counterexample: predict on dC1 with the single observation 5 labels
it an outlier, appends nothing, and performs no retraining (the detector
and file system are returned unchanged and the fit flag is false), yet the
resulting buffer length, 100, is an exact multiple of 100 — so retraining
is not equivalent to the buffer length being a multiple of 100. -/
theorem retrain_iff_cex :
    dC1.predict fit0 false [] [5] =
      .ok ({ anomalies := [0], scores := [fOut.score 5] }, dC1, [], false) ∧
    dC1.baseline.length % 100 = 0 := by
  constructor
  · rfl
  · simp [dC1]

/-- C1 (amended): on a trained detector, predict returns the strictly
increasing indices of exactly the observations the current model labels
outlier, together with one decision score per input observation; the
normal-labeled observations are appended to the baseline and, when at
least one observation was labeled normal, the baseline is truncated to its
most recent 1000 entries and the model is retrained synchronously on the
full current buffer (and persisted) if and only if the truncated buffer
length is an exact multiple of 100; when no observation is labeled normal,
the detector state and file system are unchanged and no retraining
occurs. -/
theorem predict_trained_contract (fit : FitFn) (ioFail : Bool)
    (fs : FileSys) (d : AnomalyDetector) (f : FittedModel) (xs : List Obs)
    (ht : d.trained = true) (hm : d.model = some f) :
    ∃ res d2 fs2 didT,
      d.predict fit ioFail fs xs = .ok (res, d2, fs2, didT) ∧
      res.scores = xs.map f.score ∧
      res.anomalies.Sorted (· < ·) ∧
      (∀ i : Nat, i ∈ res.anomalies ↔
        ∃ x, xs.get? i = some x ∧ f.label x = false) ∧
      (xs.filter f.label = [] → d2 = d ∧ fs2 = fs ∧ didT = false) ∧
      (xs.filter f.label ≠ [] →
        d2.baseline = takeLast 1000 (d.baseline ++ xs.filter f.label) ∧
        (didT = true ↔ d2.baseline.length % 100 = 0) ∧
        (d2.baseline.length % 100 = 0 →
          d2 = { d with model := some (fit d2.baseline),
                        baseline := d2.baseline, trained := true } ∧
          fs2 = save_model ioFail fs d.device_id "anomaly" d2) ∧
        (¬ d2.baseline.length % 100 = 0 →
          d2 = { d with baseline := d2.baseline } ∧ fs2 = fs)) := by
  by_cases hN : xs.filter f.label = []
  · refine ⟨{ anomalies := anomsDef f xs, scores := xs.map f.score },
      d, fs, false, ?_, rfl, anoms_sorted f xs, fun i => anoms_mem f xs i,
      fun _ => ⟨rfl, rfl, rfl⟩, fun h => absurd hN h⟩
    rw [predict_trained_full fit ioFail fs d f xs ht hm, hN]
    simp
  · have hpos : 0 < (xs.filter f.label).length := List.length_pos.2 hN
    by_cases hM :
        (takeLast 1000 (d.baseline ++ xs.filter f.label)).length % 100 = 0
    · refine ⟨{ anomalies := anomsDef f xs, scores := xs.map f.score },
        trainedOn fit d (takeLast 1000 (d.baseline ++ xs.filter f.label)),
        save_model ioFail fs d.device_id "anomaly"
          (trainedOn fit d (takeLast 1000 (d.baseline ++ xs.filter f.label))),
        true, ?_, rfl, anoms_sorted f xs, fun i => anoms_mem f xs i,
        fun h => absurd h hN, ?_⟩
      · rw [predict_trained_full fit ioFail fs d f xs ht hm,
          if_pos hpos, if_pos hM]
      · intro _
        refine ⟨rfl, ?_, ?_, ?_⟩
        · constructor
          · intro _
            exact hM
          · intro _
            rfl
        · intro _
          exact ⟨rfl, rfl⟩
        · intro hc
          exact absurd hM hc
    · refine ⟨{ anomalies := anomsDef f xs, scores := xs.map f.score },
        { d with baseline :=
            takeLast 1000 (d.baseline ++ xs.filter f.label) },
        fs, false, ?_, rfl, anoms_sorted f xs, fun i => anoms_mem f xs i,
        fun h => absurd h hN, ?_⟩
      · rw [predict_trained_full fit ioFail fs d f xs ht hm,
          if_pos hpos, if_neg hM]
      · intro _
        refine ⟨rfl, ?_, ?_, ?_⟩
        · constructor
          · intro h
            exact absurd h (by simp)
          · intro hc
            exact absurd hc hM
        · intro hc
          exact absurd hc hM
        · intro _
          exact ⟨rfl, rfl⟩

/-- A model labeling every point normal, for the contract witness. -/
def fW : FittedModel := { score := fun _ => 1, label := fun _ => true }

/-- A concrete trained detector for the contract witness. -/
def dW : AnomalyDetector :=
  { device_id := "dev", model := some fW, trained := true, baseline := [0] }

/-- predict_trained_contract applied at a concrete trained detector and
one concrete observation. -/
theorem predict_trained_contract_witness :
    ∃ res d2 fs2 didT,
      dW.predict fit0 false [] [5] = .ok (res, d2, fs2, didT) ∧
      res.scores = [5].map fW.score ∧
      res.anomalies.Sorted (· < ·) ∧
      (∀ i : Nat, i ∈ res.anomalies ↔
        ∃ x, ([5] : List Obs).get? i = some x ∧ fW.label x = false) ∧
      (([5] : List Obs).filter fW.label = [] →
        d2 = dW ∧ fs2 = [] ∧ didT = false) ∧
      (([5] : List Obs).filter fW.label ≠ [] →
        d2.baseline =
          takeLast 1000 (dW.baseline ++ ([5] : List Obs).filter fW.label) ∧
        (didT = true ↔ d2.baseline.length % 100 = 0) ∧
        (d2.baseline.length % 100 = 0 →
          d2 = { dW with model := some (fit0 d2.baseline),
                         baseline := d2.baseline, trained := true } ∧
          fs2 = save_model false [] dW.device_id "anomaly" d2) ∧
        (¬ d2.baseline.length % 100 = 0 →
          d2 = { dW with baseline := d2.baseline } ∧ fs2 = [])) :=
  predict_trained_contract fit0 false [] dW fW [5] rfl rfl

end AutoVolt
